import Mathlib

/-!
# Domain0: the domain-change approval handlers

A shallow embedding of `services/domain_change.go`:
`DomainChangeListMyApprove` and `DomainChangeCheck`.

The handlers talk to a database (`db.DB`), to `encoding/json`, to
`modules.DnsChangeStruct` and to the DNS provider behind `dcs.Dns`.  None of
these live in the file, so they are taken as parameters (`Env`): each call
either returns `nil` or an error, and the handler is a function of those
answers.  Every effect the handler performs is recorded, in program order, in
a trace of `Event`s; the database after the call is returned explicitly.
-/

namespace Domain0

/-- Go's `error` value: `none` is `nil`, `some msg` is a non-nil error. -/
abbrev GoError := Option String

namespace fiber

/-- The constant `fiber.StatusOK`. -/
abbrev StatusOK : Nat := 200
/-- The constant `fiber.StatusBadRequest`. -/
abbrev StatusBadRequest : Nat := 400
/-- The constant `fiber.StatusForbidden`. -/
abbrev StatusForbidden : Nat := 403
/-- The constant `fiber.StatusNotFound`. -/
abbrev StatusNotFound : Nat := 404
/-- The constant `fiber.StatusInternalServerError`. -/
abbrev StatusInternalServerError : Nat := 500

end fiber

namespace models

/-- Modelled from the spec: package `models` is not in the source file, only
its uses are.  `ActionType` has the two named constants `Submit` and
`EditDNS` the handler compares against; `other raw` stands for any further
value the Go type can hold in a stored row. -/
inductive ActionType where
  | Submit
  | EditDNS
  | other (raw : Nat)
  deriving DecidableEq, Repr

/-- Modelled from the spec: the status column of a change request, with
`Pending` initial and the constants `Approved`, `Rejected` the handler
assigns. -/
inductive ActionStatus where
  | Pending
  | Approved
  | Rejected
  deriving DecidableEq, Repr

/-- Modelled from the spec: the row type `models.DomainChange`, with the
fields the handlers read or write (`dc.DomainId`, `dc.ActionStatus`,
`dc.ActionType`, `dc.Operation`) and the columns `id`, `user_id` of the
queries.  Timestamps and the preloaded `Domain`, `User` are left out. -/
structure DomainChange where
  ID : Nat
  DomainId : Nat
  UserId : Nat
  ActionType : models.ActionType
  ActionStatus : models.ActionStatus
  Operation : String
  deriving DecidableEq, Repr

/-- Modelled from the spec: the row type `models.UserDomain`, a binding
`(user, domain, role)` with an integer role rank (columns `domain_id`,
`user_id`, `role` of the queries). -/
structure UserDomain where
  DomainId : Nat
  UserId : Nat
  Role : Nat
  deriving DecidableEq, Repr

end models

open models

/-- The two tables the handlers query, in primary-key order. -/
structure Store where
  domain_changes : List DomainChange
  user_domains : List UserDomain
  deriving DecidableEq, Repr

/-- Everything the handlers use that is outside the file.
`Owner` is the constant `models.Owner`.  The four `...Err` fields are the
backend's answer to the four database statements (`nil` when the backend
works).  `Unmarshal` is `json.Unmarshal` into a `modules.DnsChangeStruct`
(here the type parameter `Dcs`), `DnsChangeRestore` the method of that name
(it updates the struct in place, so success yields the updated struct), and
`Create`, `Update` the provider calls `dcs.Dns.Create()`,
`dcs.Dns.Update()`. -/
structure Env (Dcs : Type) where
  Owner : Nat
  loadErr : GoError
  roleErr : GoError
  findErr : GoError
  saveErr : GoError
  Unmarshal : String → Except String Dcs
  DnsChangeRestore : Dcs → Except String Dcs
  Create : Dcs → GoError
  Update : Dcs → GoError

/-- One effect of a handler beyond reading the database. -/
inductive Event (Dcs : Type) where
  | Unmarshal (operation : String)
  | DnsChangeRestore (dcs : Dcs)
  | Create (dns : Dcs)
  | Update (dns : Dcs)
  | Save (dc : DomainChange)
  deriving DecidableEq, Repr

/-- A provider (DnsClient) call: `Create` or `Update`. -/
def Event.isDnsCall {Dcs : Type} : Event Dcs → Bool
  | .Create _ => true
  | .Update _ => true
  | _ => false

/-- A write to the database. -/
def Event.isSave {Dcs : Type} : Event Dcs → Bool
  | .Save _ => true
  | _ => false

/-- What `DomainChangeCheck` leaves behind: the JSON body `mw.Domain`
(`Status`, `Errors`, `Data`), the effects performed and the database after
the call. -/
structure Response (Dcs : Type) where
  Status : Nat
  Errors : String
  Data : Option DomainChange
  trace : List (Event Dcs)
  store : Store
  deriving DecidableEq, Repr

/-- What a list handler returns: the JSON body with a list as `Data`. -/
structure ListResponse where
  Status : Nat
  Errors : String
  Data : List DomainChange
  deriving DecidableEq, Repr

/-- The query `db.DB.Where(cond).First(&x).Error`: a backend error if the
backend fails, otherwise the first row satisfying `cond`, or the error
`record not found` when there is none. -/
def First {α : Type} (backend : GoError) (rows : List α) (cond : α → Bool) :
    Except String α :=
  match backend with
  | some e => .error e
  | none =>
    match rows.find? cond with
    | some x => .ok x
    | none => .error "record not found"

/-- The statement `db.DB.Save(&dc)` on a working backend: the row with the
primary key of `dc` is overwritten with `dc`; a key that is not stored is
inserted. -/
def Store.Save (s : Store) (dc : DomainChange) : Store :=
  if s.domain_changes.any (fun x => x.ID == dc.ID) then
    { s with domain_changes :=
        s.domain_changes.map (fun x => if x.ID == dc.ID then dc else x) }
  else
    { s with domain_changes := s.domain_changes ++ [dc] }

/-- The condition `domain_id = ? AND user_id = ? AND role >= ?` of the
permission check, with arguments `dc.DomainId, uid, models.Owner`. -/
def ownerCond (owner domainId uid : Nat) (ud : UserDomain) : Bool :=
  ud.DomainId == domainId && ud.UserId == uid && decide (ud.Role ≥ owner)

/-- The subquery `SELECT domain_id FROM user_domains WHERE user_id = ? AND
role >= ?` of `DomainChangeListMyApprove`, arguments `uid, models.Owner`. -/
def ownedDomains (owner uid : Nat) (uds : List UserDomain) : List Nat :=
  (uds.filter (fun ud => ud.UserId == uid && decide (ud.Role ≥ owner))).map
    (fun ud => ud.DomainId)

/-- The handler `DomainChangeListMyApprove` for caller `uid`. -/
def DomainChangeListMyApprove {Dcs : Type} (env : Env Dcs) (s : Store) (uid : Nat) :
    ListResponse :=
  match env.findErr with
  | some _ =>
    { Status := fiber.StatusInternalServerError, Errors := "Database error", Data := [] }
  | none =>
    { Status := fiber.StatusOK, Errors := "",
      Data := s.domain_changes.filter
        (fun dc => (ownedDomains env.Owner uid s.user_domains).contains dc.DomainId) }

/-- The tail of `DomainChangeCheck` from `// update domain change` on:
`db.DB.Save(&dc)`, then 500 on an error and 200 with `dc` otherwise.
`tr` is the trace so far. -/
def saveAndReply {Dcs : Type} (env : Env Dcs) (s : Store) (dc : DomainChange)
    (tr : List (Event Dcs)) : Response Dcs :=
  match env.saveErr with
  | some _ =>
    { Status := fiber.StatusInternalServerError, Errors := "Database error",
      Data := none, trace := tr ++ [.Save dc], store := s }
  | none =>
    { Status := fiber.StatusOK, Errors := "", Data := some dc,
      trace := tr ++ [.Save dc], store := s.Save dc }

/-- The provider step of the accept branch: `Create` for `Submit`, `Update`
for `EditDNS`, and no call (`err` stays `nil`) for any other action type.
Returns `err` and the calls made. -/
def applyDns {Dcs : Type} (env : Env Dcs) (t : ActionType) (dcs : Dcs) :
    GoError × List (Event Dcs) :=
  if t = ActionType.Submit then (env.Create dcs, [.Create dcs])
  else if t = ActionType.EditDNS then (env.Update dcs, [.Update dcs])
  else (none, [])

/-- The accept branch of `DomainChangeCheck` (`opt == "accept"`), entered
with the loaded row `dc0`. -/
def acceptBranch {Dcs : Type} (env : Env Dcs) (s : Store) (dc0 : DomainChange) :
    Response Dcs :=
  let dc : DomainChange := { dc0 with ActionStatus := ActionStatus.Approved }
  match env.Unmarshal dc.Operation with
  | .error _ =>
    { Status := fiber.StatusInternalServerError, Errors := "Database error",
      Data := none, trace := [.Unmarshal dc.Operation], store := s }
  | .ok dcs0 =>
    match env.DnsChangeRestore dcs0 with
    | .error _ =>
      { Status := fiber.StatusInternalServerError, Errors := "Database error",
        Data := none,
        trace := [.Unmarshal dc.Operation, .DnsChangeRestore dcs0], store := s }
    | .ok dcs =>
      match applyDns env dc.ActionType dcs with
      | (some _, calls) =>
        { Status := fiber.StatusInternalServerError, Errors := "Database error",
          Data := none,
          trace := [.Unmarshal dc.Operation, .DnsChangeRestore dcs0] ++ calls,
          store := s }
      | (none, calls) =>
        saveAndReply env s dc
          ([.Unmarshal dc.Operation, .DnsChangeRestore dcs0] ++ calls)

/-- The statement `db.DB.Where("id = ?", dcId).First(&dc)` of
`DomainChangeCheck`. -/
def loadChange {Dcs : Type} (env : Env Dcs) (s : Store) (dcId : Nat) :
    Except String DomainChange :=
  First env.loadErr s.domain_changes (fun dc => dc.ID == dcId)

/-- The statement under `// check permission` of `DomainChangeCheck`:
`db.DB.Where("domain_id = ? AND user_id = ? AND role >= ?", dc.DomainId, uid,
models.Owner).First(&ud)`. -/
def checkPermission {Dcs : Type} (env : Env Dcs) (s : Store) (domainId uid : Nat) :
    Except String UserDomain :=
  First env.roleErr s.user_domains (ownerCond env.Owner domainId uid)

/-- The handler `DomainChangeCheck` for caller `uid`, path parameter `dcId`
and query parameter `opt`.  The path parameter is text that the database
compares with the numeric primary key; it is taken here as the number it
denotes. -/
def DomainChangeCheck {Dcs : Type} (env : Env Dcs) (s : Store) (uid dcId : Nat)
    (opt : String) : Response Dcs :=
  match loadChange env s dcId with
  | .error _ =>
    { Status := fiber.StatusNotFound, Errors := "Domain change not found",
      Data := none, trace := [], store := s }
  | .ok dc =>
    match checkPermission env s dc.DomainId uid with
    | .error _ =>
      { Status := fiber.StatusForbidden, Errors := "Permission denied",
        Data := none, trace := [], store := s }
    | .ok _ =>
      if opt = "accept" then
        acceptBranch env s dc
      else if opt = "reject" then
        saveAndReply env s { dc with ActionStatus := ActionStatus.Rejected } []
      else
        { Status := fiber.StatusBadRequest, Errors := "Invalid opt",
          Data := none, trace := [], store := s }

/-- Whether the permission check of `DomainChangeCheck` lets the caller
through (the lookup returned without error). -/
def permissionPasses {Dcs : Type} (env : Env Dcs) (s : Store) (uid domainId : Nat) :
    Bool :=
  match checkPermission env s domainId uid with
  | .ok _ => true
  | .error _ => false

/-- The status column of the stored row with primary key `id`, if any. -/
def persistedStatus (s : Store) (id : Nat) : Option ActionStatus :=
  (s.domain_changes.find? (fun x => x.ID == id)).map (fun x => x.ActionStatus)

/-- The predicate `isOwner(uid, domainId)` of the spec: some stored binding
of `uid` on `domainId` has a role at or above `Owner`. -/
def isOwner (owner : Nat) (s : Store) (uid domainId : Nat) : Prop :=
  ∃ ud ∈ s.user_domains, ud.DomainId = domainId ∧ ud.UserId = uid ∧ ud.Role ≥ owner

/-! ## Concrete data for the scenarios -/

/-- A backend in which every call succeeds; the payload decodes to itself. -/
def envOk : Env String :=
  { Owner := 2, loadErr := none, roleErr := none, findErr := none, saveErr := none,
    Unmarshal := fun op => .ok op, DnsChangeRestore := fun d => .ok d,
    Create := fun _ => none, Update := fun _ => none }

/-- Request 7 of the spec's scenarios, with a chosen type and status. -/
def req7 (t : ActionType) (st : ActionStatus) : DomainChange :=
  { ID := 7, DomainId := 3, UserId := 9, ActionType := t, ActionStatus := st,
    Operation := "A x.example.com 1.2.3.4" }

/-- The store of the scenarios: request 7 on domain 3, user 4 its owner. -/
def store7 (t : ActionType) (st : ActionStatus) : Store :=
  { domain_changes := [req7 t st],
    user_domains := [{ DomainId := 3, UserId := 4, Role := 2 }] }

/-- A backend that fails on the role lookup only. -/
def envRoleDown : Env String :=
  { envOk with roleErr := some "connection refused" }

/-- A provider whose `Create` fails. -/
def envCreateFails : Env String :=
  { envOk with Create := fun _ => some "provider error" }

/-! ## Facts about the queries -/

theorem First_ok {α : Type} {b : GoError} {rows : List α} {c : α → Bool} {x : α}
    (h : First b rows c = .ok x) : b = none ∧ rows.find? c = some x := by
  unfold First at h
  cases b with
  | some e => simp at h
  | none =>
    cases hf : rows.find? c with
    | none => simp [hf] at h
    | some y =>
      simp only [hf, Except.ok.injEq] at h
      exact ⟨rfl, by rw [h]⟩

theorem loadChange_ok {Dcs : Type} {env : Env Dcs} {s : Store} {dcId : Nat}
    {r : DomainChange} (h : loadChange env s dcId = .ok r) :
    r.ID = dcId ∧ s.domain_changes.find? (fun x => x.ID == dcId) = some r := by
  have hf := (First_ok h).2
  have hc := List.find?_some hf
  exact ⟨by simpa using hc, hf⟩

theorem checkPermission_ok {Dcs : Type} (env : Env Dcs) (s : Store) (uid d : Nat)
    (hback : env.roleErr = none) (hown : isOwner env.Owner s uid d) :
    ∃ ud, checkPermission env s d uid = .ok ud := by
  obtain ⟨ud, hmem, hd, hu, hr⟩ := hown
  unfold checkPermission First
  rw [hback]
  cases hf : s.user_domains.find? (ownerCond env.Owner d uid) with
  | some x => exact ⟨x, rfl⟩
  | none =>
    have hnone := List.find?_eq_none.mp hf ud hmem
    simp [ownerCond, hd, hu, hr] at hnone

theorem checkPermission_error {Dcs : Type} (env : Env Dcs) (s : Store) (uid d : Nat)
    (hno : ¬ isOwner env.Owner s uid d) :
    ∃ e, checkPermission env s d uid = .error e := by
  unfold checkPermission First
  cases env.roleErr with
  | some e => exact ⟨e, rfl⟩
  | none =>
    cases hf : s.user_domains.find? (ownerCond env.Owner d uid) with
    | none => exact ⟨_, rfl⟩
    | some x =>
      exfalso
      apply hno
      have hc := List.find?_some hf
      have hm := List.mem_of_find?_eq_some hf
      simp [ownerCond] at hc
      exact ⟨x, hm, hc.1.1, hc.1.2, hc.2⟩

theorem permissionPasses_iff {Dcs : Type} (env : Env Dcs) (s : Store) (uid d : Nat) :
    permissionPasses env s uid d = true ↔
      env.roleErr = none ∧ isOwner env.Owner s uid d := by
  constructor
  · intro h
    by_cases hown : isOwner env.Owner s uid d
    · refine ⟨?_, hown⟩
      cases hb : env.roleErr with
      | none => rfl
      | some e => simp [permissionPasses, checkPermission, First, hb] at h
    · obtain ⟨e, he⟩ := checkPermission_error env s uid d hown
      simp [permissionPasses, he] at h
  · rintro ⟨hb, hown⟩
    obtain ⟨ud, hud⟩ := checkPermission_ok env s uid d hb hown
    simp [permissionPasses, hud]

theorem find?_replace (l : List DomainChange) (dc : DomainChange)
    (h : l.any (fun x => x.ID == dc.ID) = true) :
    (l.map (fun x => if x.ID == dc.ID then dc else x)).find?
      (fun x => x.ID == dc.ID) = some dc := by
  induction l with
  | nil => simp at h
  | cons a t ih =>
    by_cases ha : a.ID = dc.ID
    · simp [ha]
    · have ht : t.any (fun x => x.ID == dc.ID) = true := by
        simpa [ha] using h
      have hstep : (List.map (fun x => if x.ID == dc.ID then dc else x) (a :: t)).find?
          (fun x => x.ID == dc.ID)
          = (List.map (fun x => if x.ID == dc.ID then dc else x) t).find?
            (fun x => x.ID == dc.ID) := by
        have hb : (a.ID == dc.ID) = false := by simpa using ha
        simp only [List.map_cons, hb, Bool.false_eq_true, if_false, List.find?_cons]
      rw [hstep]
      exact ih ht

theorem persistedStatus_Save (s : Store) (dc : DomainChange) :
    persistedStatus (s.Save dc) dc.ID = some dc.ActionStatus := by
  unfold persistedStatus Store.Save
  by_cases h : s.domain_changes.any (fun x => x.ID == dc.ID) = true
  · simp only [h, if_true]
    rw [find?_replace _ _ h]
    rfl
  · have hnone : s.domain_changes.find? (fun x => x.ID == dc.ID) = none := by
      rw [List.find?_eq_none]
      intro x hx hc
      exact h (List.any_eq_true.mpr ⟨x, hx, hc⟩)
    simp [h, List.find?_append, hnone]

theorem persistedStatus_of_load {Dcs : Type} {env : Env Dcs} {s : Store} {dcId : Nat}
    {r : DomainChange} (h : loadChange env s dcId = .ok r) :
    persistedStatus s r.ID = some r.ActionStatus := by
  obtain ⟨hid, hf⟩ := loadChange_ok h
  simp [persistedStatus, hid, hf]

theorem saveAndReply_store {Dcs : Type} (env : Env Dcs) (s : Store) (dc : DomainChange)
    (tr : List (Event Dcs)) :
    ((saveAndReply env s dc tr).Status ≠ fiber.StatusOK →
      (saveAndReply env s dc tr).store = s) ∧
    ((saveAndReply env s dc tr).Status = fiber.StatusOK →
      persistedStatus (saveAndReply env s dc tr).store dc.ID = some dc.ActionStatus) := by
  unfold saveAndReply
  split
  · simp
  · simp [persistedStatus_Save]

theorem acceptBranch_store {Dcs : Type} (env : Env Dcs) (s : Store) (r : DomainChange) :
    ((acceptBranch env s r).Status ≠ fiber.StatusOK → (acceptBranch env s r).store = s) ∧
    ((acceptBranch env s r).Status = fiber.StatusOK →
      persistedStatus (acceptBranch env s r).store r.ID = some ActionStatus.Approved) := by
  unfold acceptBranch
  simp only []
  split
  · simp
  · split
    · simp
    · split
      · simp
      · exact saveAndReply_store env s { r with ActionStatus := ActionStatus.Approved } _

theorem saveAndReply_not_forbidden {Dcs : Type} (env : Env Dcs) (s : Store)
    (dc : DomainChange) (tr : List (Event Dcs)) :
    (saveAndReply env s dc tr).Status ≠ fiber.StatusForbidden := by
  unfold saveAndReply
  split <;> simp

theorem acceptBranch_not_forbidden {Dcs : Type} (env : Env Dcs) (s : Store)
    (r : DomainChange) : (acceptBranch env s r).Status ≠ fiber.StatusForbidden := by
  unfold acceptBranch
  simp only []
  split
  · simp
  · split
    · simp
    · split
      · simp
      · exact saveAndReply_not_forbidden env s _ _

theorem forbidden_status_iff {Dcs : Type} (env : Env Dcs) (s : Store)
    (uid dcId : Nat) (opt : String) (r : DomainChange)
    (hload : loadChange env s dcId = .ok r) :
    (DomainChangeCheck env s uid dcId opt).Status = fiber.StatusForbidden ↔
      permissionPasses env s uid r.DomainId = false := by
  cases hperm : checkPermission env s r.DomainId uid with
  | error e => simp [DomainChangeCheck, hload, hperm, permissionPasses]
  | ok ud =>
    have h1 := acceptBranch_not_forbidden env s r
    have h2 := saveAndReply_not_forbidden env s
      { r with ActionStatus := ActionStatus.Rejected } []
    by_cases ha : opt = "accept"
    · simp [DomainChangeCheck, hload, hperm, permissionPasses, ha, h1]
    · by_cases hr : opt = "reject"
      · simp [DomainChangeCheck, hload, hperm, permissionPasses, hr, h2]
      · simp [DomainChangeCheck, hload, hperm, permissionPasses, ha, hr]

theorem mem_ownedDomains (owner uid : Nat) (s : Store) (d : Nat) :
    d ∈ ownedDomains owner uid s.user_domains ↔ isOwner owner s uid d := by
  unfold ownedDomains isOwner
  simp only [List.mem_map, List.mem_filter, Bool.and_eq_true, beq_iff_eq, decide_eq_true_eq]
  constructor
  · rintro ⟨ud, ⟨hm, hu, hr⟩, hd⟩
    exact ⟨ud, hm, hd, hu, hr⟩
  · rintro ⟨ud, hm, hd, hu, hr⟩
    exact ⟨ud, ⟨hm, hu, hr⟩, hd⟩

/-! ## The permission check -/

/-- C1 (authorization totality): for every caller, every request `r` the load
step returns and every value of `opt`, whatever the backend answers to the role
lookup: if no stored binding of the caller on `r.DomainId` has a role at or
above `Owner`, `DomainChangeCheck` answers 403 "Permission denied", performs no
effect at all (no decode, no `Create`, no `Update`, no `Save`) and leaves the
database, hence the stored row of `r`, as it was. -/
theorem DomainChangeCheck_forbidden {Dcs : Type} (env : Env Dcs) (s : Store)
    (uid dcId : Nat) (opt : String) (r : DomainChange)
    (hload : loadChange env s dcId = .ok r)
    (hno : ¬ isOwner env.Owner s uid r.DomainId) :
    (DomainChangeCheck env s uid dcId opt).Status = fiber.StatusForbidden ∧
    (DomainChangeCheck env s uid dcId opt).Errors = "Permission denied" ∧
    (DomainChangeCheck env s uid dcId opt).trace = [] ∧
    (DomainChangeCheck env s uid dcId opt).store = s ∧
    (DomainChangeCheck env s uid dcId opt).store.domain_changes.find?
      (fun x => x.ID == r.ID) = some r := by
  obtain ⟨e, he⟩ := checkPermission_error env s uid r.DomainId hno
  obtain ⟨hid, hf⟩ := loadChange_ok hload
  simp [DomainChangeCheck, hload, he, hid, hf]

/-- Scenario 3 of the spec: caller 5 holds no role on domain 3. -/
theorem DomainChangeCheck_forbidden_witness :
    (DomainChangeCheck envOk (store7 .Submit .Pending) 5 7 "accept").Status = 403 ∧
    (DomainChangeCheck envOk (store7 .Submit .Pending) 5 7 "accept").trace = [] ∧
    (DomainChangeCheck envOk (store7 .Submit .Pending) 5 7 "accept").store
      = store7 .Submit .Pending :=
  have h := DomainChangeCheck_forbidden envOk (store7 .Submit .Pending) 5 7 "accept"
    (req7 .Submit .Pending) (by rfl) (by
      rintro ⟨ud, hmem, -, hu, -⟩
      simp [store7] at hmem
      subst hmem
      simp at hu)
  ⟨h.1, h.2.2.1, h.2.2.2.1⟩

/-! ## The accept branch -/

/-- C3 (failure before provider success leaves the row Pending): for a
Pending request `r` and an owner caller, if `opt = "accept"` and the payload
does not decode, or the restore step fails, or the provider call made for the
action type (`Create` for `Submit`, `Update` for `EditDNS`) returns an error,
then `DomainChangeCheck` answers 500, its trace holds no `Save`, the database
is unchanged and the stored status of `r` is still `Pending`. -/
theorem DomainChangeCheck_accept_failure_keeps_pending {Dcs : Type} (env : Env Dcs)
    (s : Store) (uid dcId : Nat) (r : DomainChange)
    (hload : loadChange env s dcId = .ok r)
    (hpending : r.ActionStatus = ActionStatus.Pending)
    (hback : env.roleErr = none)
    (hown : isOwner env.Owner s uid r.DomainId)
    (hfail :
      (∃ e, env.Unmarshal r.Operation = .error e) ∨
      (∃ d e, env.Unmarshal r.Operation = .ok d ∧ env.DnsChangeRestore d = .error e) ∨
      (∃ d m e, env.Unmarshal r.Operation = .ok d ∧ env.DnsChangeRestore d = .ok m ∧
        ((r.ActionType = ActionType.Submit ∧ env.Create m = some e) ∨
         (r.ActionType = ActionType.EditDNS ∧ env.Update m = some e)))) :
    (DomainChangeCheck env s uid dcId "accept").Status = fiber.StatusInternalServerError ∧
    (∀ ev ∈ (DomainChangeCheck env s uid dcId "accept").trace, ev.isSave = false) ∧
    (DomainChangeCheck env s uid dcId "accept").store = s ∧
    persistedStatus (DomainChangeCheck env s uid dcId "accept").store r.ID
      = some ActionStatus.Pending := by
  obtain ⟨ud, hud⟩ := checkPermission_ok env s uid r.DomainId hback hown
  have hp := persistedStatus_of_load hload
  rw [hpending] at hp
  rcases hfail with ⟨e, h1⟩ | ⟨d, e, h1, h2⟩ | ⟨d, m, e, h1, h2, h3⟩
  · simp [DomainChangeCheck, hload, hud, acceptBranch, h1, hp, Event.isSave]
  · simp [DomainChangeCheck, hload, hud, acceptBranch, h1, h2, hp, Event.isSave]
  · rcases h3 with ⟨ht, hc⟩ | ⟨ht, hc⟩
    · simp [DomainChangeCheck, hload, hud, acceptBranch, h1, h2, applyDns, ht, hc, hp,
        Event.isSave]
    · simp [DomainChangeCheck, hload, hud, acceptBranch, h1, h2, applyDns, ht, hc, hp,
        Event.isSave]

/-- A `Submit` request whose `Create` fails at the provider. -/
theorem DomainChangeCheck_accept_failure_keeps_pending_witness :
    (DomainChangeCheck envCreateFails (store7 .Submit .Pending) 4 7 "accept").Status = 500 ∧
    (DomainChangeCheck envCreateFails (store7 .Submit .Pending) 4 7 "accept").store
      = store7 .Submit .Pending ∧
    persistedStatus
      (DomainChangeCheck envCreateFails (store7 .Submit .Pending) 4 7 "accept").store 7
      = some ActionStatus.Pending :=
  have h := DomainChangeCheck_accept_failure_keeps_pending envCreateFails
    (store7 .Submit .Pending) 4 7 (req7 .Submit .Pending) (by rfl) (by rfl) (by rfl)
    ⟨{ DomainId := 3, UserId := 4, Role := 2 }, by simp [store7], rfl, rfl, by decide⟩
    (Or.inr (Or.inr ⟨"A x.example.com 1.2.3.4", "A x.example.com 1.2.3.4",
      "provider error", rfl, rfl, Or.inl ⟨rfl, rfl⟩⟩))
  ⟨h.1, h.2.2.1, h.2.2.2⟩

/-- C7 (accept dispatch): for a request `r` of any status (Pending in
particular) with an owner caller, a payload that decodes to `d` and restores
to `m`, and a save that succeeds: when `r.ActionType = Submit` and `Create m`
succeeds, the effects of `DomainChangeCheck` with `opt = "accept"` are exactly
decode, restore, one `Create m` and the save (no `Update`); when
`r.ActionType = EditDNS` and `Update m` succeeds they are decode, restore, one
`Update m` and the save (no `Create`).  In both cases the answer is 200 with
`r` set to `Approved`, and the stored status of `r` is `Approved`. -/
theorem DomainChangeCheck_accept_dispatch {Dcs : Type} (env : Env Dcs)
    (s : Store) (uid dcId : Nat) (r : DomainChange) (d m : Dcs)
    (hload : loadChange env s dcId = .ok r)
    (hback : env.roleErr = none)
    (hown : isOwner env.Owner s uid r.DomainId)
    (hdec : env.Unmarshal r.Operation = .ok d)
    (hres : env.DnsChangeRestore d = .ok m)
    (hsave : env.saveErr = none) :
    (r.ActionType = ActionType.Submit → env.Create m = none →
      (DomainChangeCheck env s uid dcId "accept").trace
        = [.Unmarshal r.Operation, .DnsChangeRestore d, .Create m,
           .Save { r with ActionStatus := ActionStatus.Approved }] ∧
      (DomainChangeCheck env s uid dcId "accept").Status = fiber.StatusOK ∧
      (DomainChangeCheck env s uid dcId "accept").Data
        = some { r with ActionStatus := ActionStatus.Approved } ∧
      persistedStatus (DomainChangeCheck env s uid dcId "accept").store r.ID
        = some ActionStatus.Approved) ∧
    (r.ActionType = ActionType.EditDNS → env.Update m = none →
      (DomainChangeCheck env s uid dcId "accept").trace
        = [.Unmarshal r.Operation, .DnsChangeRestore d, .Update m,
           .Save { r with ActionStatus := ActionStatus.Approved }] ∧
      (DomainChangeCheck env s uid dcId "accept").Status = fiber.StatusOK ∧
      (DomainChangeCheck env s uid dcId "accept").Data
        = some { r with ActionStatus := ActionStatus.Approved } ∧
      persistedStatus (DomainChangeCheck env s uid dcId "accept").store r.ID
        = some ActionStatus.Approved) := by
  obtain ⟨ud, hud⟩ := checkPermission_ok env s uid r.DomainId hback hown
  have hp := persistedStatus_Save s { r with ActionStatus := ActionStatus.Approved }
  constructor
  · intro ht hc
    simp [DomainChangeCheck, hload, hud, acceptBranch, hdec, hres, applyDns, ht, hc,
      saveAndReply, hsave]
    simpa [ht] using hp
  · intro ht hc
    simp [DomainChangeCheck, hload, hud, acceptBranch, hdec, hres, applyDns, ht, hc,
      saveAndReply, hsave]
    simpa [ht] using hp

/-- Scenario 1 of the spec: the happy accept of a `Submit` request. -/
theorem DomainChangeCheck_accept_dispatch_witness :
    (DomainChangeCheck envOk (store7 .Submit .Pending) 4 7 "accept").trace
      = [.Unmarshal "A x.example.com 1.2.3.4", .DnsChangeRestore "A x.example.com 1.2.3.4",
         .Create "A x.example.com 1.2.3.4", .Save (req7 .Submit .Approved)] ∧
    (DomainChangeCheck envOk (store7 .Submit .Pending) 4 7 "accept").Status = 200 ∧
    (DomainChangeCheck envOk (store7 .Submit .Pending) 4 7 "accept").Data
      = some (req7 .Submit .Approved) ∧
    persistedStatus (DomainChangeCheck envOk (store7 .Submit .Pending) 4 7 "accept").store 7
      = some ActionStatus.Approved :=
  (DomainChangeCheck_accept_dispatch envOk (store7 .Submit .Pending) 4 7
    (req7 .Submit .Pending) "A x.example.com 1.2.3.4" "A x.example.com 1.2.3.4"
    (by rfl) (by rfl)
    ⟨{ DomainId := 3, UserId := 4, Role := 2 }, by simp [store7], rfl, rfl, by decide⟩
    (by rfl) (by rfl) (by rfl)).1 (by rfl) (by rfl)

/-! ## The reject branch and the bad `opt` -/

/-- C6 (no provider call on reject): for every request `r` the load step
returns and an owner caller, `DomainChangeCheck` with `opt = "reject"` performs
exactly one effect, the save of `r` with status `Rejected`: no decode, no
restore, no `Create`, no `Update`.  When that save succeeds the answer is 200
with `r` set to `Rejected`, and the stored status of `r` is `Rejected`. -/
theorem DomainChangeCheck_reject {Dcs : Type} (env : Env Dcs)
    (s : Store) (uid dcId : Nat) (r : DomainChange)
    (hload : loadChange env s dcId = .ok r)
    (hback : env.roleErr = none)
    (hown : isOwner env.Owner s uid r.DomainId) :
    (DomainChangeCheck env s uid dcId "reject").trace
      = [.Save { r with ActionStatus := ActionStatus.Rejected }] ∧
    (∀ ev ∈ (DomainChangeCheck env s uid dcId "reject").trace, ev.isDnsCall = false) ∧
    (env.saveErr = none →
      (DomainChangeCheck env s uid dcId "reject").Status = fiber.StatusOK ∧
      (DomainChangeCheck env s uid dcId "reject").Data
        = some { r with ActionStatus := ActionStatus.Rejected } ∧
      persistedStatus (DomainChangeCheck env s uid dcId "reject").store r.ID
        = some ActionStatus.Rejected) := by
  obtain ⟨ud, hud⟩ := checkPermission_ok env s uid r.DomainId hback hown
  have hp := persistedStatus_Save s { r with ActionStatus := ActionStatus.Rejected }
  have hne : ¬ ("reject" = "accept") := by decide
  refine ⟨?_, ?_, ?_⟩
  · cases hs : env.saveErr <;>
      simp [DomainChangeCheck, hload, hud, hne, saveAndReply, hs]
  · cases hs : env.saveErr <;>
      simp [DomainChangeCheck, hload, hud, hne, saveAndReply, hs, Event.isDnsCall]
  · intro hs
    simp [DomainChangeCheck, hload, hud, hne, saveAndReply, hs]
    simpa using hp

/-- Scenario 2 of the spec: the happy reject. -/
theorem DomainChangeCheck_reject_witness :
    (DomainChangeCheck envOk (store7 .Submit .Pending) 4 7 "reject").trace
      = [.Save (req7 .Submit .Rejected)] ∧
    (DomainChangeCheck envOk (store7 .Submit .Pending) 4 7 "reject").Status = 200 ∧
    persistedStatus (DomainChangeCheck envOk (store7 .Submit .Pending) 4 7 "reject").store 7
      = some ActionStatus.Rejected :=
  have h := DomainChangeCheck_reject envOk (store7 .Submit .Pending) 4 7
    (req7 .Submit .Pending) (by rfl) (by rfl)
    ⟨{ DomainId := 3, UserId := 4, Role := 2 }, by simp [store7], rfl, rfl, by decide⟩
  ⟨h.1, (h.2.2 (by rfl)).1, (h.2.2 (by rfl)).2.2⟩

/-- C8 (bad decision value): for every request `r` the load step returns, an
owner caller and every string `opt` other than exactly `"accept"` and
`"reject"` (the empty string and other spellings included),
`DomainChangeCheck` answers 400 "Invalid opt", performs no effect at all (no
provider call, no save) and leaves the database, hence the stored row of `r`,
as it was. -/
theorem DomainChangeCheck_bad_opt {Dcs : Type} (env : Env Dcs)
    (s : Store) (uid dcId : Nat) (opt : String) (r : DomainChange)
    (hload : loadChange env s dcId = .ok r)
    (hback : env.roleErr = none)
    (hown : isOwner env.Owner s uid r.DomainId)
    (haccept : opt ≠ "accept") (hreject : opt ≠ "reject") :
    (DomainChangeCheck env s uid dcId opt).Status = fiber.StatusBadRequest ∧
    (DomainChangeCheck env s uid dcId opt).Errors = "Invalid opt" ∧
    (DomainChangeCheck env s uid dcId opt).trace = [] ∧
    (DomainChangeCheck env s uid dcId opt).store = s ∧
    (DomainChangeCheck env s uid dcId opt).store.domain_changes.find?
      (fun x => x.ID == r.ID) = some r := by
  obtain ⟨ud, hud⟩ := checkPermission_ok env s uid r.DomainId hback hown
  obtain ⟨hid, hf⟩ := loadChange_ok hload
  simp [DomainChangeCheck, hload, hud, haccept, hreject, hid, hf]

/-- Scenario 4 of the spec (`"maybe"`), and the same for the empty string and
for `"Accept"`. -/
theorem DomainChangeCheck_bad_opt_witness :
    ((DomainChangeCheck envOk (store7 .Submit .Pending) 4 7 "maybe").Status = 400 ∧
     (DomainChangeCheck envOk (store7 .Submit .Pending) 4 7 "maybe").store
       = store7 .Submit .Pending) ∧
    (DomainChangeCheck envOk (store7 .Submit .Pending) 4 7 "").Status = 400 ∧
    (DomainChangeCheck envOk (store7 .Submit .Pending) 4 7 "Accept").Status = 400 :=
  have hown : isOwner envOk.Owner (store7 .Submit .Pending) 4 (req7 .Submit .Pending).DomainId :=
    ⟨{ DomainId := 3, UserId := 4, Role := 2 }, by simp [store7], rfl, rfl, by decide⟩
  have h1 := DomainChangeCheck_bad_opt envOk (store7 .Submit .Pending) 4 7 "maybe"
    (req7 .Submit .Pending) (by rfl) (by rfl) hown (by decide) (by decide)
  have h2 := DomainChangeCheck_bad_opt envOk (store7 .Submit .Pending) 4 7 ""
    (req7 .Submit .Pending) (by rfl) (by rfl) hown (by decide) (by decide)
  have h3 := DomainChangeCheck_bad_opt envOk (store7 .Submit .Pending) 4 7 "Accept"
    (req7 .Submit .Pending) (by rfl) (by rfl) hown (by decide) (by decide)
  ⟨⟨h1.1, h1.2.2.2.1⟩, h2.1, h3.1⟩

/-! ## Terminal states -/

/-- C2, counterexample: request 7 is stored as `Approved`; owner 4 calls
`DomainChangeCheck` with `opt = "reject"` on a working backend; the answer is
200 and the stored status is now `Rejected`. -/
theorem DomainChangeCheck_terminal_overwritten :
    persistedStatus (store7 .Submit .Approved) 7 = some ActionStatus.Approved ∧
    (DomainChangeCheck envOk (store7 .Submit .Approved) 4 7 "reject").Status = 200 ∧
    persistedStatus (DomainChangeCheck envOk (store7 .Submit .Approved) 4 7 "reject").store 7
      = some ActionStatus.Rejected ∧
    ¬ (persistedStatus
        (DomainChangeCheck envOk (store7 .Submit .Approved) 4 7 "reject").store 7
      = persistedStatus (store7 .Submit .Approved) 7) := by
  decide

/-- C2, amended: for every stored request `r` (Approved and Rejected ones
included), caller, `opt` and every outcome of the decode, provider and save
steps: a call of `DomainChangeCheck` that does not answer 200 leaves the
database unchanged, so the stored status of `r` is what it was; a call that
answers 200 was made by an owner with `opt` equal to `"accept"` or `"reject"`
and leaves the stored status of `r` at `Approved`, respectively `Rejected`,
whatever it was before (there is no guard on the previous status). -/
theorem DomainChangeCheck_status_after {Dcs : Type} (env : Env Dcs)
    (s : Store) (uid dcId : Nat) (opt : String) (r : DomainChange)
    (hload : loadChange env s dcId = .ok r) :
    ((DomainChangeCheck env s uid dcId opt).Status ≠ fiber.StatusOK →
      (DomainChangeCheck env s uid dcId opt).store = s ∧
      persistedStatus (DomainChangeCheck env s uid dcId opt).store r.ID
        = some r.ActionStatus) ∧
    ((DomainChangeCheck env s uid dcId opt).Status = fiber.StatusOK →
      isOwner env.Owner s uid r.DomainId ∧
      ((opt = "accept" ∧
          persistedStatus (DomainChangeCheck env s uid dcId opt).store r.ID
            = some ActionStatus.Approved) ∨
       (opt = "reject" ∧
          persistedStatus (DomainChangeCheck env s uid dcId opt).store r.ID
            = some ActionStatus.Rejected))) := by
  have hp := persistedStatus_of_load hload
  have hne : ¬ ("reject" = "accept") := by decide
  by_cases hown : isOwner env.Owner s uid r.DomainId
  swap
  · obtain ⟨e, he⟩ := checkPermission_error env s uid r.DomainId hown
    simp [DomainChangeCheck, hload, he, hp]
  cases hperm : checkPermission env s r.DomainId uid with
  | error e => simp [DomainChangeCheck, hload, hperm, hp]
  | ok ud =>
    by_cases ha : opt = "accept"
    · subst ha
      have hb := acceptBranch_store env s r
      have heq : DomainChangeCheck env s uid dcId "accept" = acceptBranch env s r := by
        simp [DomainChangeCheck, hload, hperm]
      rw [heq]
      exact ⟨fun h => ⟨hb.1 h, by rw [hb.1 h]; exact hp⟩,
        fun h => ⟨hown, Or.inl ⟨rfl, hb.2 h⟩⟩⟩
    · by_cases hr : opt = "reject"
      · subst hr
        have hb := saveAndReply_store env s
          { r with ActionStatus := ActionStatus.Rejected } []
        have heq : DomainChangeCheck env s uid dcId "reject"
            = saveAndReply env s { r with ActionStatus := ActionStatus.Rejected } [] := by
          simp [DomainChangeCheck, hload, hperm]
        rw [heq]
        exact ⟨fun h => ⟨hb.1 h, by rw [hb.1 h]; exact hp⟩,
          fun h => ⟨hown, Or.inr ⟨rfl, hb.2 h⟩⟩⟩
      · simp [DomainChangeCheck, hload, hperm, ha, hr, hp]

/-- A rejected request that an owner then accepts: the call answers 200 and
the stored status is `Approved`. -/
theorem DomainChangeCheck_status_after_witness :
    (DomainChangeCheck envOk (store7 .EditDNS .Rejected) 4 7 "accept").Status = 200 ∧
    persistedStatus (DomainChangeCheck envOk (store7 .EditDNS .Rejected) 4 7 "accept").store 7
      = some ActionStatus.Approved :=
  have h := (DomainChangeCheck_status_after envOk (store7 .EditDNS .Rejected) 4 7 "accept"
    (req7 .EditDNS .Rejected) (by rfl)).2 (by rfl)
  ⟨by rfl, h.2.elim (fun a => a.2) (fun b => absurd b.1 (by decide))⟩

/-! ## Action types other than `Submit` and `EditDNS` -/

/-- For the two action types the handler knows, a 200 answer to `accept` comes
after a provider call that returned `nil`: `Create` for `Submit`, `Update` for
`EditDNS`, on the restored payload. -/
theorem DomainChangeCheck_approved_after_provider {Dcs : Type} (env : Env Dcs)
    (s : Store) (uid dcId : Nat) (r : DomainChange)
    (hload : loadChange env s dcId = .ok r)
    (hknown : r.ActionType = ActionType.Submit ∨ r.ActionType = ActionType.EditDNS)
    (hok : (DomainChangeCheck env s uid dcId "accept").Status = fiber.StatusOK) :
    ∃ d m, env.Unmarshal r.Operation = .ok d ∧ env.DnsChangeRestore d = .ok m ∧
      ((r.ActionType = ActionType.Submit ∧ env.Create m = none ∧
          Event.Create m ∈ (DomainChangeCheck env s uid dcId "accept").trace) ∨
       (r.ActionType = ActionType.EditDNS ∧ env.Update m = none ∧
          Event.Update m ∈ (DomainChangeCheck env s uid dcId "accept").trace)) := by
  cases hperm : checkPermission env s r.DomainId uid with
  | error e => simp [DomainChangeCheck, hload, hperm] at hok
  | ok ud =>
    cases h1 : env.Unmarshal r.Operation with
    | error e => simp [DomainChangeCheck, hload, hperm, acceptBranch, h1] at hok
    | ok d =>
      cases h2 : env.DnsChangeRestore d with
      | error e => simp [DomainChangeCheck, hload, hperm, acceptBranch, h1, h2] at hok
      | ok m =>
        refine ⟨d, m, rfl, h2, ?_⟩
        rcases hknown with ht | ht
        · cases hc : env.Create m with
          | some e =>
            simp [DomainChangeCheck, hload, hperm, acceptBranch, h1, h2, applyDns, ht, hc]
              at hok
          | none =>
            left
            cases hs : env.saveErr <;>
              simp [DomainChangeCheck, hload, hperm, acceptBranch, h1, h2, applyDns, ht, hc,
                saveAndReply, hs]
        · cases hc : env.Update m with
          | some e =>
            simp [DomainChangeCheck, hload, hperm, acceptBranch, h1, h2, applyDns, ht, hc]
              at hok
          | none =>
            right
            cases hs : env.saveErr <;>
              simp [DomainChangeCheck, hload, hperm, acceptBranch, h1, h2, applyDns, ht, hc,
                saveAndReply, hs]

/-- C4, the code at a failing input: request 7 is Pending with an action type
that is neither `Submit` nor `EditDNS`; owner 4 accepts it.  The handler makes
no provider call at all, yet it saves the row and the stored status becomes
`Approved`. -/
theorem DomainChangeCheck_approved_without_provider :
    (DomainChangeCheck envOk (store7 (.other 0) .Pending) 4 7 "accept").trace
      = [.Unmarshal "A x.example.com 1.2.3.4", .DnsChangeRestore "A x.example.com 1.2.3.4",
         .Save (req7 (.other 0) .Approved)] ∧
    (DomainChangeCheck envOk (store7 (.other 0) .Pending) 4 7 "accept").trace.filter
      Event.isDnsCall = [] ∧
    persistedStatus (store7 (.other 0) .Pending) 7 = some ActionStatus.Pending ∧
    persistedStatus
      (DomainChangeCheck envOk (store7 (.other 0) .Pending) 4 7 "accept").store 7
      = some ActionStatus.Approved := by
  decide

/-- C5, the code at a failing input: for a stored action type that is neither
`Submit` nor `EditDNS`, an owner, a payload that decodes and restores, the
answer to `accept` is 200 with the request set to `Approved` and no error
text, not 500. -/
theorem DomainChangeCheck_unknown_action_type_accepted :
    (DomainChangeCheck envOk (store7 (.other 1) .Pending) 4 7 "accept").Status
      = fiber.StatusOK ∧
    (DomainChangeCheck envOk (store7 (.other 1) .Pending) 4 7 "accept").Status
      ≠ fiber.StatusInternalServerError ∧
    (DomainChangeCheck envOk (store7 (.other 1) .Pending) 4 7 "accept").Errors = "" ∧
    (DomainChangeCheck envOk (store7 (.other 1) .Pending) 4 7 "accept").Data
      = some (req7 (.other 1) .Approved) := by
  decide

/-! ## The list of approvable requests -/

/-- C9 (the list agrees with the permission check): when the list query
returns, `DomainChangeListMyApprove` answers 200 and a request `r` is in the
answer exactly when it is stored and some binding of the caller on
`r.DomainId` has a role at or above `Owner`.  With a working role lookup that
is exactly when the permission check of `DomainChangeCheck` passes, so that
`DomainChangeCheck` on a listed request never answers 403 and on an unlisted
stored one always does.  Membership depends on `r.DomainId` only: who
authored `r` plays no part. -/
theorem DomainChangeListMyApprove_iff {Dcs : Type} (env : Env Dcs) (s : Store) (u : Nat)
    (hfind : env.findErr = none) :
    (DomainChangeListMyApprove env s u).Status = fiber.StatusOK ∧
    (∀ r, r ∈ (DomainChangeListMyApprove env s u).Data ↔
      r ∈ s.domain_changes ∧ isOwner env.Owner s u r.DomainId) ∧
    (env.roleErr = none → ∀ r, r ∈ (DomainChangeListMyApprove env s u).Data ↔
      r ∈ s.domain_changes ∧ permissionPasses env s u r.DomainId = true) ∧
    (env.roleErr = none → ∀ r opt, loadChange env s r.ID = .ok r →
      (r ∈ (DomainChangeListMyApprove env s u).Data ↔
        (DomainChangeCheck env s u r.ID opt).Status ≠ fiber.StatusForbidden)) ∧
    (∀ r r2, r ∈ s.domain_changes → r2 ∈ s.domain_changes → r.DomainId = r2.DomainId →
      (r ∈ (DomainChangeListMyApprove env s u).Data ↔
        r2 ∈ (DomainChangeListMyApprove env s u).Data)) := by
  have hmem : ∀ r, r ∈ (DomainChangeListMyApprove env s u).Data ↔
      r ∈ s.domain_changes ∧ isOwner env.Owner s u r.DomainId := by
    intro r
    have hc : (ownedDomains env.Owner u s.user_domains).contains r.DomainId = true ↔
        r.DomainId ∈ ownedDomains env.Owner u s.user_domains := by
      simp [List.contains]
    simp only [DomainChangeListMyApprove, hfind, List.mem_filter]
    rw [hc, mem_ownedDomains]
  refine ⟨by simp [DomainChangeListMyApprove, hfind], hmem, ?_, ?_, ?_⟩
  · intro hrole r
    rw [hmem, permissionPasses_iff]
    simp [hrole]
  · intro hrole r opt hload
    have hin : r ∈ s.domain_changes := List.mem_of_find?_eq_some (loadChange_ok hload).2
    rw [hmem, Ne, forbidden_status_iff env s u r.ID opt r hload,
      Bool.not_eq_false, permissionPasses_iff]
    simp [hrole, hin]
  · intro r r2 hr hr2 hd
    rw [hmem, hmem, hd]
    simp [hr, hr2]

/-- The store of the scenarios: owner 4 is offered request 7, which user 9
authored; user 9, its author, and user 5 are offered nothing. -/
theorem DomainChangeListMyApprove_iff_witness :
    (DomainChangeListMyApprove envOk (store7 .Submit .Pending) 4).Status = 200 ∧
    (req7 .Submit .Pending ∈ (DomainChangeListMyApprove envOk (store7 .Submit .Pending) 4).Data ↔
      (DomainChangeCheck envOk (store7 .Submit .Pending) 4 7 "accept").Status ≠ 403) ∧
    (req7 .Submit .Pending ∈ (DomainChangeListMyApprove envOk (store7 .Submit .Pending) 9).Data ↔
      (DomainChangeCheck envOk (store7 .Submit .Pending) 9 7 "accept").Status ≠ 403) :=
  ⟨(DomainChangeListMyApprove_iff envOk (store7 .Submit .Pending) 4 (by rfl)).1,
   (DomainChangeListMyApprove_iff envOk (store7 .Submit .Pending) 4 (by rfl)).2.2.2.1
      (by rfl) (req7 .Submit .Pending) "accept" (by rfl),
   (DomainChangeListMyApprove_iff envOk (store7 .Submit .Pending) 9 (by rfl)).2.2.2.1
      (by rfl) (req7 .Submit .Pending) "accept" (by rfl)⟩

/-! ## Backend failure of the role lookup -/

/-- C10, counterexample: user 4 owns domain 3 but the role lookup fails with
a backend error; user 5 has no binding and the backend works.  The two calls
of `DomainChangeCheck` give the same response, 403 "Permission denied". -/
theorem DomainChangeCheck_backend_failure_is_forbidden :
    DomainChangeCheck envRoleDown (store7 .Submit .Pending) 4 7 "accept"
      = DomainChangeCheck envOk (store7 .Submit .Pending) 5 7 "accept" ∧
    (DomainChangeCheck envRoleDown (store7 .Submit .Pending) 4 7 "accept").Status
      = fiber.StatusForbidden ∧
    (DomainChangeCheck envRoleDown (store7 .Submit .Pending) 4 7 "accept").Errors
      = "Permission denied" := by
  decide

/-- C10, amended: for every request `r` the load step returns, every caller
and every `opt`, when the role lookup fails with a backend error
`DomainChangeCheck` gives the response it gives for an absent binding: 403
"Permission denied", no data, no effect, the database unchanged. -/
theorem DomainChangeCheck_role_backend_error {Dcs : Type} (env : Env Dcs) (s : Store)
    (uid dcId : Nat) (opt : String) (r : DomainChange) (e : String)
    (hload : loadChange env s dcId = .ok r)
    (hback : env.roleErr = some e) :
    DomainChangeCheck env s uid dcId opt =
      { Status := fiber.StatusForbidden, Errors := "Permission denied", Data := none,
        trace := [], store := s } := by
  simp [DomainChangeCheck, hload, checkPermission, First, hback]

/-- The owner of domain 3 is answered 403 while the backend is down. -/
theorem DomainChangeCheck_role_backend_error_witness :
    DomainChangeCheck envRoleDown (store7 .Submit .Pending) 4 7 "accept" =
      { Status := 403, Errors := "Permission denied", Data := none,
        trace := [], store := store7 .Submit .Pending } :=
  DomainChangeCheck_role_backend_error envRoleDown (store7 .Submit .Pending) 4 7 "accept"
    (req7 .Submit .Pending) "connection refused" (by rfl) (by rfl)

end Domain0
